import Mathlib

/-!
Verification of the datasci_tool repository: a shallow embedding of the
local vector store (src/datasci_tool/vector_store.py), the research-agent
response parsing (src/datasci_tool/research_agent.py), the embedding
adapter (src/datasci_tool/embeddings.py) and the pipeline orchestrator
(src/datasci_tool/pipeline.py), followed by theorems settling the frozen
claims about the specification.

Modelling conventions:
- Python floats are modelled as exact rationals.  All float literals used
  by the claims (1, 0, 0.8, 0.2, ...) are exactly representable, and the
  claims are about exact comparisons and orderings.
- Python exceptions are modelled by the inductive type PyErr; fallible
  operations return Except PyErr.
- The persistence file is modelled by the JSON value that json.dump
  writes (Option Json, none when the file is absent), plus a rewrite
  counter recording how often the file was rewritten.
- The metadata mapping of a stored document is modelled as an association
  list from string keys to string values: every metadata value this
  program creates (title, url, summary in pipeline.py) is a string, and
  the store treats the mapping as opaque.
- Python list.sort is a stable sort; it is modelled by the stable
  List.insertionSort, which produces the identical ordering for a total
  preorder comparator.
-/

/-- JSON values, as produced by Python json.loads / consumed by json.dump.
Object fields keep their textual order; numbers are exact rationals. -/
inductive Json where
  | null
  | bool (b : Bool)
  | num (q : ℚ)
  | str (s : String)
  | arr (xs : List Json)
  | obj (fields : List (String × Json))

/-- Python exceptions raised by the modelled code.  The constructors record
the information content of the exception messages raised by the source:
- dimensionMismatch: the ValueError raised by LocalVectorStore.add
  ("Embedding for {id} has length {actual}, expected {expected}");
- queryDimensionMismatch: the ValueError raised by LocalVectorStore.query
  ("Query embedding has length {actual}, expected {expected}");
- malformedResponse: the RuntimeError raised by
  ResearchAgent._parse_json_array when json.loads fails
  ("Agent response was not valid JSON: {text[:1000]}"), carrying the
  first 1000 characters of the offending text;
- malformedSnippet: the RuntimeError raised when an array element lacks a
  title ("Missing key in snippet #{idx}: {item}"; the repr of the item is
  elided in the model);
- typeError / keyError / attributeError / indexError: the corresponding
  built-in Python exceptions;
- zipLengthError: the ValueError raised by zip(..., strict=True) on a
  length mismatch. -/
inductive PyErr where
  | dimensionMismatch (document_id : String) (actual expected : Nat)
  | queryDimensionMismatch (actual expected : Nat)
  | malformedResponse (excerpt : List Char)
  | malformedSnippet (index : Nat)
  | typeError (msg : String)
  | keyError (key : String)
  | attributeError (attr : String)
  | indexError
  | zipLengthError
deriving DecidableEq

/-- True exactly for the errors the specification calls MalformedResponse:
the RuntimeErrors raised by ResearchAgent._parse_json_array. -/
def PyErr.isMalformedResponse : PyErr → Bool
  | .malformedResponse _ => true
  | .malformedSnippet _ => true
  | _ => false

/-- StoredDocument from vector_store.py: a document persisted in the
vector database. -/
structure StoredDocument where
  document_id : String
  text : String
  metadata : List (String × String)
  embedding : List ℚ
deriving DecidableEq

deriving instance DecidableEq for Except

/-- Dot product used by _cosine_similarity:
sum(x * y for x, y in zip(a, b)).  Python zip truncates to the shorter
list, as List.zipWith does. -/
def dotProd (a b : List ℚ) : ℚ :=
  (List.zipWith (fun x y => x * y) a b).sum

/-- Sum of squares of a vector: sum(x * x for x in a), the square of the
Euclidean norm computed by _cosine_similarity. -/
def sumSq (a : List ℚ) : ℚ :=
  (a.map (fun x => x * x)).sum

/-- Faithful translation of LocalVectorStore._cosine_similarity:
dot / (norm_a * norm_b) with norms Real.sqrt of the sums of squares, and
0 when either norm is 0 (the guarded branch; division by zero never
happens in the source and the model needs no partiality). -/
noncomputable def cosine_similarity (a b : List ℚ) : ℝ :=
  let dot : ℝ := (dotProd a b : ℚ)
  let norm_a : ℝ := Real.sqrt ((sumSq a : ℚ) : ℝ)
  let norm_b : ℝ := Real.sqrt ((sumSq b : ℚ) : ℝ)
  if norm_a = 0 ∨ norm_b = 0 then 0 else dot / (norm_a * norm_b)

/-- The strictly monotone map x ↦ x * |x| on the reals, under which the
executable ranking key simKey is the image of cosine_similarity. -/
noncomputable def signedSq (x : ℝ) : ℝ := x * |x|

/-- Executable ranking key, exactly equal to
signedSq (cosine_similarity a b) (theorem simKey_eq_signedSq below).
The sort in query compares cosine similarities; since signedSq is
strictly monotone, comparing simKey values over ℚ decides exactly the
same ordering, and simKey is 0 exactly when the similarity is 0. -/
def simKey (a b : List ℚ) : ℚ :=
  if sumSq a = 0 ∨ sumSq b = 0 then 0
  else dotProd a b * |dotProd a b| / (sumSq a * sumSq b)

/-- Python slicing xs[:stop] for an arbitrary (possibly negative) integer
stop: a nonnegative stop takes the first stop elements (clamped to the
length); a negative stop takes the first len(xs) + stop elements
(clamped to zero). -/
def pySlice {α : Type} (xs : List α) (stop : Int) : List α :=
  if 0 ≤ stop then xs.take stop.toNat
  else xs.take ((xs.length : Int) + stop).toNat

/-- State of a LocalVectorStore instance: the configured dimension, the
in-memory document list, the current contents of the persistence file
(none when the file is absent) and the number of file rewrites performed
by this instance (the modification state of the file). -/
structure LocalVectorStore where
  vector_dimension : Nat
  documents : List StoredDocument
  file : Option Json
  file_writes : Nat

/-- Python dict lookup on a JSON object modelled as an association list
(keys written by this program are unique). -/
def lookupField (fields : List (String × Json)) (key : String) : Option Json :=
  (fields.find? (fun kv => kv.1 == key)).map (fun kv => kv.2)

/-- Python iteration over a JSON value: lists yield their elements, dicts
yield their keys, strings yield their characters (as one-character
strings); other values raise TypeError. -/
def pyIterate : Json → Except PyErr (List Json)
  | .arr xs => .ok xs
  | .obj fields => .ok (fields.map (fun kv => Json.str kv.1))
  | .str s => .ok (s.data.map (fun c => Json.str (String.mk [c])))
  | _ => .error (.typeError "object is not iterable")

/-- Python subscript item[key] with a string key: dicts look the key up
(KeyError when absent); strings, lists and the remaining values raise
TypeError. -/
def pySubscript (item : Json) (key : String) : Except PyErr Json :=
  match item with
  | .obj fields =>
    match lookupField fields key with
    | some v => .ok v
    | none => .error (.keyError key)
  | .str _ => .error (.typeError "string indices must be integers")
  | .arr _ => .error (.typeError "list indices must be integers")
  | _ => .error (.typeError "object is not subscriptable")

/-- Python item.get(key, default): defined on dicts only (AttributeError
otherwise), returning the default when the key is absent. -/
def pyGet (item : Json) (key : String) (default : Json) : Except PyErr Json :=
  match item with
  | .obj fields => .ok ((lookupField fields key).getD default)
  | _ => .error (.attributeError "get")

/-- Extracts a JSON string.  Python performs no check at the use sites
(the values flow into string-typed fields); the model rejects non-string
values with a TypeError at the point of use.  No claim exercises
non-string values in these positions. -/
def asPyStr : Json → Except PyErr String
  | .str s => .ok s
  | _ => .error (.typeError "expected a string value")

namespace LocalVectorStore

/-- JSON entry written for one document by _save. -/
def docToJson (doc : StoredDocument) : Json :=
  .obj [("document_id", .str doc.document_id),
        ("text", .str doc.text),
        ("metadata", .obj (doc.metadata.map (fun kv => (kv.1, Json.str kv.2)))),
        ("embedding", .arr (doc.embedding.map Json.num))]

/-- JSON payload written by _save: a "documents" array with one entry per
document currently held, in order. -/
def savePayload (documents : List StoredDocument) : Json :=
  .obj [("documents", .arr (documents.map docToJson))]

/-- Reads list(item["embedding"]): every element must be a number for the
resulting embedding to be a vector of rationals.  (Python would defer the
type error to the first arithmetic use; the model raises it at load.) -/
def parseEmbedding : List Json → Except PyErr (List ℚ)
  | [] => .ok []
  | .num q :: rest => (parseEmbedding rest).map (fun l => q :: l)
  | _ :: _ => .error (.typeError "embedding element is not a number")

/-- Field-by-field conversion of a metadata object into the
string-to-string mapping. -/
def parseMetadataFields : List (String × Json) → Except PyErr (List (String × String))
  | [] => .ok []
  | kv :: rest => do
    let v ← asPyStr kv.2
    let others ← parseMetadataFields rest
    .ok ((kv.1, v) :: others)

/-- Reads item.get("metadata", {}) as a string-to-string mapping (see the
modelling conventions above). -/
def parseMetadata : Json → Except PyErr (List (String × String))
  | .obj fields => parseMetadataFields fields
  | _ => .error (.typeError "metadata is not an object")

/-- Python item[key] on a JSON object already known to be iterated from a
dict payload: KeyError when the key is absent. -/
def requireField (fields : List (String × Json)) (key : String) : Except PyErr Json :=
  match lookupField fields key with
  | some v => .ok v
  | none => .error (.keyError key)

/-- One iteration of the _load loop: build a StoredDocument from a payload
entry.  document_id, text and embedding are mandatory (KeyError when
absent, exactly as item[...] raises); metadata defaults to the empty
mapping via item.get("metadata", {}). -/
def docFromJson : Json → Except PyErr StoredDocument
  | .obj fields => do
    let document_id ← asPyStr (← requireField fields "document_id")
    let text ← asPyStr (← requireField fields "text")
    let metadata ← parseMetadata ((lookupField fields "metadata").getD (.obj []))
    let embedding ← parseEmbedding (← pyIterate (← requireField fields "embedding"))
    .ok ⟨document_id, text, metadata, embedding⟩
  | _ => .error (.typeError "document entry is not an object")

/-- The _load loop: convert each payload entry into a StoredDocument,
appending in order; the first failing entry aborts the load. -/
def loadDocs : List Json → Except PyErr (List StoredDocument)
  | [] => .ok []
  | item :: rest => do
    let d ← docFromJson item
    let ds ← loadDocs rest
    .ok (d :: ds)

/-- LocalVectorStore._load: parse the persisted payload.
payload.get("documents", []) requires the payload to be a dict
(AttributeError otherwise) and defaults to the empty list; each entry is
converted by docFromJson.  No embedding length is checked here. -/
def load (payload : Json) : Except PyErr (List StoredDocument) :=
  match payload with
  | .obj fields => do
    let items ← pyIterate ((lookupField fields "documents").getD (.arr []))
    loadDocs items
  | _ => .error (.attributeError "get")

/-- LocalVectorStore.__init__: an absent file yields the empty store; an
existing file is loaded eagerly.  The configured dimension is stored
without being checked against the loaded embeddings. -/
def init (file : Option Json) (vector_dimension : Nat) : Except PyErr LocalVectorStore :=
  match file with
  | none => .ok ⟨vector_dimension, [], none, 0⟩
  | some payload => (load payload).map (fun docs => ⟨vector_dimension, docs, some payload, 0⟩)

/-- A fresh store: the state produced by __init__ when the persistence
file does not exist. -/
def fresh (vector_dimension : Nat) : LocalVectorStore :=
  ⟨vector_dimension, [], none, 0⟩

/-- LocalVectorStore.add.  An empty batch returns immediately.  Otherwise
every document is validated against the configured dimension before any
mutation (the validation loop precedes the extend in the source); the
first violation raises the dimension-mismatch ValueError and the state is
returned unchanged.  On success all documents are appended in order and
the whole file is rewritten (_save), bumping the rewrite counter. -/
def add (s : LocalVectorStore) (documents : List StoredDocument) :
    Except PyErr Unit × LocalVectorStore :=
  if documents = [] then (.ok (), s)
  else
    match documents.find? (fun d => d.embedding.length != s.vector_dimension) with
    | some doc =>
      (.error (.dimensionMismatch doc.document_id doc.embedding.length s.vector_dimension), s)
    | none =>
      let documents' := s.documents ++ documents
      (.ok (), { s with documents := documents',
                        file := some (savePayload documents'),
                        file_writes := s.file_writes + 1 })

/-- The ranking computed by query: all stored documents, stably sorted by
descending similarity to the probe (scored.sort(key=score, reverse=True);
see the modelling conventions for why comparing simKey reproduces the
float comparison of cosine similarities). -/
def rankedDocs (s : LocalVectorStore) (embedding : List ℚ) : List StoredDocument :=
  List.insertionSort
    (fun d1 d2 => simKey d2.embedding embedding ≤ simKey d1.embedding embedding)
    s.documents

/-- LocalVectorStore.query.  An empty store returns the empty list at
once (before any probe check); a probe whose length differs from the
configured dimension raises the query ValueError; otherwise all documents
are ranked by descending similarity and sliced by scored[:top_k] with
Python slice semantics.  The method never mutates the store, so the
returned state is the input state. -/
def query (s : LocalVectorStore) (embedding : List ℚ) (top_k : Int) :
    Except PyErr (List StoredDocument) × LocalVectorStore :=
  if s.documents = [] then (.ok [], s)
  else if embedding.length != s.vector_dimension then
    (.error (.queryDimensionMismatch embedding.length s.vector_dimension), s)
  else
    (.ok (pySlice (rankedDocs s embedding) top_k), s)

end LocalVectorStore

/-- ResearchSnippet from research_agent.py: one researched web page. -/
structure ResearchSnippet where
  title : String
  url : String
  content : String
  summary : String
deriving DecidableEq

/-- The accumulated (and stripped) streamed response text of the research
agent, together with the outcome of Python json.loads on it, which the
model does not re-implement: either the text is not valid JSON (notJson,
carrying the raw characters), or it parses to a JSON value. -/
inductive AccumText where
  | notJson (raw : List Char)
  | json (value : Json)

namespace ResearchAgent

/-- One iteration of the _parse_json_array loop: build a ResearchSnippet
from an array element.  item["title"] is mandatory — its KeyError is
caught and re-raised as the missing-key RuntimeError; url, content
(falling back to the body alias) and summary default to the empty
string via item.get. -/
def snippetFromJson (idx : Nat) (item : Json) : Except PyErr ResearchSnippet := do
  let titleJson ← match pySubscript item "title" with
    | .error (.keyError _) => Except.error (PyErr.malformedSnippet idx)
    | r => r
  let title ← asPyStr titleJson
  let url ← asPyStr (← pyGet item "url" (.str ""))
  let contentDefault ← pyGet item "body" (.str "")
  let content ← asPyStr (← pyGet item "content" contentDefault)
  let summary ← asPyStr (← pyGet item "summary" (.str ""))
  .ok ⟨title, url, content, summary⟩

/-- The enumerated loop of _parse_json_array over the iterated items. -/
def parseSnippets (idx : Nat) : List Json → Except PyErr (List ResearchSnippet)
  | [] => .ok []
  | item :: rest => do
    let s ← snippetFromJson idx item
    let others ← parseSnippets (idx + 1) rest
    .ok (s :: others)

/-- ResearchAgent._parse_json_array: text that json.loads rejects raises
the RuntimeError carrying text[:1000]; a parsed value is iterated with
Python iteration semantics and each element converted to a snippet. -/
def parse_json_array : AccumText → Except PyErr (List ResearchSnippet)
  | .notJson raw => .error (.malformedResponse (raw.take 1000))
  | .json value => do
    let items ← pyIterate value
    parseSnippets 0 items

/-- ResearchAgent.research reduced to its parsing step: the streaming
transport accumulates text opaquely and the final result is exactly
_parse_json_array applied to the stripped accumulated text. -/
def research (accum : AccumText) : Except PyErr (List ResearchSnippet) :=
  parse_json_array accum

end ResearchAgent

/-- Observable calls to the external adapters made during a pipeline run:
an embedding-service request and a summary-generator request. -/
inductive CallEvent where
  | embedCall (texts : List String)
  | summarizeCall (query : String) (bullet_points : List String)
deriving DecidableEq

/-- The collaborators of one ResearchPipeline.run invocation: the outcome
of the research agent for the query, the backing embedding service, the
summary generator and its configuration flag, and the configured
similarity_top_k. -/
structure PipelineEnv where
  research : Except PyErr (List ResearchSnippet)
  embedSvc : List String → Except PyErr (List (List ℚ))
  summarize : String → List String → String
  has_summary_generator : Bool
  similarity_top_k : Int

/-- ResearchOutput from pipeline.py: the artifacts produced by a run. -/
structure ResearchOutput where
  query : String
  snippets : List ResearchSnippet
  summary : String
  similar_documents : List StoredDocument
deriving DecidableEq

/-- EmbeddingService.embed: empty input yields empty output without
invoking the backing service; otherwise one service request is issued
(recorded as an event). -/
def EmbeddingService.embed (svc : List String → Except PyErr (List (List ℚ)))
    (texts : List String) : Except PyErr (List (List ℚ)) × List CallEvent :=
  if texts = [] then (.ok [], [])
  else (svc texts, [.embedCall texts])

namespace ResearchPipeline

/-- ResearchPipeline._build_summary: one bullet line per snippet
("{title}: {summary or first 200 characters of content}"); no snippets
yield the fixed no-findings string without any generator call; without a
configured generator the bullets are joined by newlines; otherwise the
generator is invoked (recorded as an event). -/
def build_summary (env : PipelineEnv) (query : String)
    (snippets : List ResearchSnippet) : String × List CallEvent :=
  let bullet_points := snippets.map
    (fun sn => sn.title ++ ": " ++ (if sn.summary ≠ "" then sn.summary else sn.content.take 200))
  if bullet_points = [] then ("No research findings were produced.", [])
  else if env.has_summary_generator = false then (String.intercalate "\n" bullet_points, [])
  else (env.summarize query bullet_points, [.summarizeCall query bullet_points])

/-- ResearchPipeline.run, sequencing research → embed contents →
zip(strict) → build documents → add → embed query → take element 0 →
query the store → build summary.  The result carries the final store
state and the list of external-adapter calls made, in order.  Any failure
aborts the run at the failing step with the state reached so far. -/
def run (env : PipelineEnv) (store : LocalVectorStore) (query : String) :
    Except PyErr ResearchOutput × LocalVectorStore × List CallEvent :=
  match env.research with
  | .error e => (.error e, store, [])
  | .ok snippets =>
    let embRes := EmbeddingService.embed env.embedSvc (snippets.map (fun sn => sn.content))
    match embRes.1 with
    | .error e => (.error e, store, embRes.2)
    | .ok embeddings =>
      if snippets.length ≠ embeddings.length then (.error .zipLengthError, store, embRes.2)
      else
        let documents := List.zipWith
          (fun (sn : ResearchSnippet) emb =>
            StoredDocument.mk (if sn.url ≠ "" then sn.url else sn.title) sn.content
              [("title", sn.title), ("url", sn.url), ("summary", sn.summary)] emb)
          snippets embeddings
        let added := store.add documents
        match added.1 with
        | .error e => (.error e, added.2, embRes.2)
        | .ok _ =>
          let qEmbRes := EmbeddingService.embed env.embedSvc [query]
          match qEmbRes.1 with
          | .error e => (.error e, added.2, embRes.2 ++ qEmbRes.2)
          | .ok [] => (.error .indexError, added.2, embRes.2 ++ qEmbRes.2)
          | .ok (query_embedding :: _) =>
            let queried := added.2.query query_embedding env.similarity_top_k
            match queried.1 with
            | .error e => (.error e, queried.2, embRes.2 ++ qEmbRes.2)
            | .ok similar_documents =>
              let built := build_summary env query snippets
              (.ok ⟨query, snippets, built.1, similar_documents⟩, queried.2,
               embRes.2 ++ qEmbRes.2 ++ built.2)

end ResearchPipeline

/-! Concrete fixtures used by witnesses and counterexamples. -/

/-- Document with the exact probe vector of the similarity-ordering
scenario. -/
def docA : StoredDocument := ⟨"A", "text a", [], [1, 0, 0]⟩

/-- Document with the orthogonal vector of the similarity-ordering
scenario. -/
def docB : StoredDocument := ⟨"B", "text b", [], [0, 1, 0]⟩

/-- Document with the partial-overlap vector of the similarity-ordering
scenario. -/
def docC : StoredDocument := ⟨"C", "text c", [], [0.8, 0.2, 0]⟩

/-- Dimension-3 store holding the three similarity-ordering documents. -/
def store3 : LocalVectorStore := ⟨3, [docA, docB, docC], none, 0⟩

/-- First document of the two-document dimension-1 store. -/
def docX : StoredDocument := ⟨"X", "text x", [], [1]⟩

/-- Second document of the two-document dimension-1 store. -/
def docY : StoredDocument := ⟨"Y", "text y", [], [-1]⟩

/-- Dimension-1 store holding two documents, used for the negative top_k
scenario. -/
def store2 : LocalVectorStore := ⟨1, [docX, docY], none, 0⟩

/-- Valid dimension-2 document with nonempty metadata, used for the
round-trip witness. -/
def docW : StoredDocument := ⟨"w-id", "w text", [("title", "W")], [1, 2]⟩

/-- Dimension-2 document inside a batch offered to a dimension-3 store. -/
def docBad2 : StoredDocument := ⟨"b", "bad", [], [1, 2]⟩

/-- Length-2 document persisted by a dimension-2 store and later reloaded
by a dimension-3 store. -/
def docBad : StoredDocument := ⟨"old", "stale", [], [1, 1]⟩

/-- Persistence payload holding one length-2 embedding. -/
def payload9 : Json := LocalVectorStore.savePayload [docBad]

/-- The store state obtained by re-opening payload9 with dimension 3. -/
def store9 : LocalVectorStore := ⟨3, [docBad], some payload9, 0⟩

/-- Pre-existing valid document of the zero-snippet scenario store. -/
def docOld : StoredDocument := ⟨"old-url", "old text", [], [1, 0, 0]⟩

/-- Dimension-3 store already holding one document before a run. -/
def storeC7 : LocalVectorStore := ⟨3, [docOld], none, 0⟩

/-- Pipeline collaborators for the zero-snippet scenario: the research
agent produced no snippets, the embedding service answers every request
with the vector [1, 0, 0] per text, a summary generator is configured. -/
def envC7 : PipelineEnv :=
  ⟨.ok [], fun texts => .ok (texts.map (fun _ => [1, 0, 0])),
   fun _ _ => "generated summary", true, 2⟩

/-- Pipeline collaborators whose research outcome is the parse of a
non-JSON accumulated response. -/
def envC8 : PipelineEnv :=
  ⟨ResearchAgent.parse_json_array (.notJson "nope".data),
   fun texts => .ok (texts.map (fun _ => [1, 0, 0])),
   fun _ _ => "generated summary", true, 2⟩

/-! Helper lemmas shared by the claim theorems. -/

/-- Unfolding of cosine_similarity with the lets reduced. -/
theorem cosine_similarity_def (a b : List ℚ) :
    cosine_similarity a b =
      if Real.sqrt ((sumSq a : ℚ) : ℝ) = 0 ∨ Real.sqrt ((sumSq b : ℚ) : ℝ) = 0 then 0
      else ((dotProd a b : ℚ) : ℝ) /
        (Real.sqrt ((sumSq a : ℚ) : ℝ) * Real.sqrt ((sumSq b : ℚ) : ℝ)) := rfl

/-- A sum of squares of rationals is nonnegative. -/
theorem sumSq_nonneg (a : List ℚ) : 0 ≤ sumSq a := by
  unfold sumSq
  apply List.sum_nonneg
  intro x hx
  obtain ⟨y, -, rfl⟩ := List.mem_map.mp hx
  exact mul_self_nonneg y

/-- A norm is zero exactly when the underlying sum of squares is zero. -/
theorem sqrt_sumSq_eq_zero_iff (a : List ℚ) :
    Real.sqrt ((sumSq a : ℚ) : ℝ) = 0 ↔ sumSq a = 0 := by
  have h0 : (0 : ℝ) ≤ ((sumSq a : ℚ) : ℝ) := by exact_mod_cast sumSq_nonneg a
  rw [Real.sqrt_eq_zero h0]
  exact_mod_cast Iff.rfl

/-- The executable ranking key is the image of the real cosine similarity
under the strictly monotone map signedSq. -/
theorem simKey_eq_signedSq (a b : List ℚ) :
    ((simKey a b : ℚ) : ℝ) = signedSq (cosine_similarity a b) := by
  by_cases h : sumSq a = 0 ∨ sumSq b = 0
  · have hs : Real.sqrt ((sumSq a : ℚ) : ℝ) = 0 ∨ Real.sqrt ((sumSq b : ℚ) : ℝ) = 0 := by
      rcases h with h1 | h1
      · exact Or.inl ((sqrt_sumSq_eq_zero_iff a).mpr h1)
      · exact Or.inr ((sqrt_sumSq_eq_zero_iff b).mpr h1)
    rw [cosine_similarity_def, if_pos hs]
    unfold simKey
    rw [if_pos h]
    simp [signedSq]
  · push_neg at h
    obtain ⟨ha, hb⟩ := h
    have hA : (0 : ℝ) < ((sumSq a : ℚ) : ℝ) := by
      exact_mod_cast lt_of_le_of_ne (sumSq_nonneg a) (Ne.symm ha)
    have hB : (0 : ℝ) < ((sumSq b : ℚ) : ℝ) := by
      exact_mod_cast lt_of_le_of_ne (sumSq_nonneg b) (Ne.symm hb)
    have hsa : 0 < Real.sqrt ((sumSq a : ℚ) : ℝ) := Real.sqrt_pos.mpr hA
    have hsb : 0 < Real.sqrt ((sumSq b : ℚ) : ℝ) := Real.sqrt_pos.mpr hB
    have hcond : ¬ (Real.sqrt ((sumSq a : ℚ) : ℝ) = 0 ∨ Real.sqrt ((sumSq b : ℚ) : ℝ) = 0) := by
      push_neg
      exact ⟨ne_of_gt hsa, ne_of_gt hsb⟩
    rw [cosine_similarity_def, if_neg hcond]
    unfold simKey
    rw [if_neg (by push_neg; exact ⟨ha, hb⟩)]
    unfold signedSq
    have hmul : 0 < Real.sqrt ((sumSq a : ℚ) : ℝ) * Real.sqrt ((sumSq b : ℚ) : ℝ) :=
      mul_pos hsa hsb
    rw [abs_div, abs_of_pos hmul, div_mul_div_comm]
    have hkey : Real.sqrt ((sumSq a : ℚ) : ℝ) * Real.sqrt ((sumSq b : ℚ) : ℝ) *
        (Real.sqrt ((sumSq a : ℚ) : ℝ) * Real.sqrt ((sumSq b : ℚ) : ℝ)) =
        ((sumSq a : ℚ) : ℝ) * ((sumSq b : ℚ) : ℝ) := by
      rw [mul_mul_mul_comm, Real.mul_self_sqrt hA.le, Real.mul_self_sqrt hB.le]
    rw [hkey]
    push_cast
    ring

/-- The map x ↦ x * |x| is strictly monotone on the reals. -/
theorem signedSq_strictMono : StrictMono signedSq := by
  intro x y hxy
  unfold signedSq
  rcases le_or_lt 0 x with hx | hx
  · have hy : 0 ≤ y := le_trans hx hxy.le
    rw [abs_of_nonneg hx, abs_of_nonneg hy]
    nlinarith
  · rcases le_or_lt 0 y with hy | hy
    · rw [abs_of_neg hx, abs_of_nonneg hy]
      nlinarith [mul_pos_of_neg_of_neg hx hx, mul_self_nonneg y]
    · rw [abs_of_neg hx, abs_of_neg hy]
      nlinarith [mul_pos_of_neg_of_neg hx hx, mul_pos_of_neg_of_neg hy hy]

/-- Comparing ranking keys decides the comparison of cosine similarities. -/
theorem simKey_le_iff (a b c d : List ℚ) :
    simKey a b ≤ simKey c d ↔ cosine_similarity a b ≤ cosine_similarity c d := by
  constructor
  · intro h
    have h2 : ((simKey a b : ℚ) : ℝ) ≤ ((simKey c d : ℚ) : ℝ) := by exact_mod_cast h
    rw [simKey_eq_signedSq, simKey_eq_signedSq] at h2
    exact signedSq_strictMono.le_iff_le.mp h2
  · intro h
    have h2 := signedSq_strictMono.le_iff_le.mpr h
    rw [← simKey_eq_signedSq, ← simKey_eq_signedSq] at h2
    exact_mod_cast h2

/-- Strict version of simKey_le_iff. -/
theorem simKey_lt_iff (a b c d : List ℚ) :
    simKey a b < simKey c d ↔ cosine_similarity a b < cosine_similarity c d := by
  constructor
  · intro h
    have h2 : ((simKey a b : ℚ) : ℝ) < ((simKey c d : ℚ) : ℝ) := by exact_mod_cast h
    rw [simKey_eq_signedSq, simKey_eq_signedSq] at h2
    exact signedSq_strictMono.lt_iff_lt.mp h2
  · intro h
    have h2 := signedSq_strictMono.lt_iff_lt.mpr h
    rw [← simKey_eq_signedSq, ← simKey_eq_signedSq] at h2
    exact_mod_cast h2

/-- Metadata round-trips through its JSON form. -/
theorem parseMetadata_round_trip (m : List (String × String)) :
    LocalVectorStore.parseMetadata (.obj (m.map (fun kv => (kv.1, Json.str kv.2)))) = .ok m := by
  show LocalVectorStore.parseMetadataFields (m.map (fun kv => (kv.1, Json.str kv.2))) = .ok m
  induction m with
  | nil => rfl
  | cons kv rest ih =>
    show (do
      let v ← asPyStr (Json.str kv.2)
      let others ← LocalVectorStore.parseMetadataFields (rest.map (fun kv => (kv.1, Json.str kv.2)))
      Except.ok ((kv.1, v) :: others)) = Except.ok (kv :: rest)
    rw [ih]
    rfl

/-- Embeddings round-trip through their JSON form. -/
theorem parseEmbedding_round_trip (e : List ℚ) :
    LocalVectorStore.parseEmbedding (e.map Json.num) = .ok e := by
  induction e with
  | nil => rfl
  | cons q rest ih =>
    show (LocalVectorStore.parseEmbedding (rest.map Json.num)).map (fun l => q :: l) =
      Except.ok (q :: rest)
    rw [ih]
    rfl

/-- One persisted document entry round-trips through _save and _load. -/
theorem docFromJson_docToJson (d : StoredDocument) :
    LocalVectorStore.docFromJson (LocalVectorStore.docToJson d) = .ok d := by
  obtain ⟨id, text, metadata, embedding⟩ := d
  show (do
    let m ← LocalVectorStore.parseMetadata
      (.obj (metadata.map (fun kv => (kv.1, Json.str kv.2))))
    let e ← LocalVectorStore.parseEmbedding (embedding.map Json.num)
    Except.ok (⟨id, text, m, e⟩ : StoredDocument)) = Except.ok ⟨id, text, metadata, embedding⟩
  rw [parseMetadata_round_trip]
  show (do
    let e ← LocalVectorStore.parseEmbedding (embedding.map Json.num)
    Except.ok (⟨id, text, metadata, e⟩ : StoredDocument)) = Except.ok ⟨id, text, metadata, embedding⟩
  rw [parseEmbedding_round_trip]
  rfl

/-- The payload written by _save loads back to the same document list. -/
theorem load_savePayload (docs : List StoredDocument) :
    LocalVectorStore.load (LocalVectorStore.savePayload docs) = .ok docs := by
  show LocalVectorStore.loadDocs (docs.map LocalVectorStore.docToJson) = .ok docs
  induction docs with
  | nil => rfl
  | cons d rest ih =>
    show (do
      let d2 ← LocalVectorStore.docFromJson (LocalVectorStore.docToJson d)
      let ds ← LocalVectorStore.loadDocs (rest.map LocalVectorStore.docToJson)
      Except.ok (d2 :: ds)) = Except.ok (d :: rest)
    rw [docFromJson_docToJson, ih]
    rfl

/-- Characterization of add on a fully valid nonempty batch. -/
theorem add_all_valid (s : LocalVectorStore) (batch : List StoredDocument)
    (hne : batch ≠ [])
    (h : ∀ d ∈ batch, d.embedding.length = s.vector_dimension) :
    LocalVectorStore.add s batch =
      (.ok (), { s with
        documents := s.documents ++ batch,
        file := some (LocalVectorStore.savePayload (s.documents ++ batch)),
        file_writes := s.file_writes + 1 }) := by
  unfold LocalVectorStore.add
  rw [if_neg hne]
  have hfind : batch.find? (fun d => d.embedding.length != s.vector_dimension) = none := by
    rw [List.find?_eq_none]
    intro d hd
    simpa using h d hd
  rw [hfind]

/-- Characterization of add when the batch holds an invalid document: the
first offender is reported and the state is untouched. -/
theorem add_first_invalid (s : LocalVectorStore) (batch : List StoredDocument)
    (d0 : StoredDocument)
    (hf : batch.find? (fun d => d.embedding.length != s.vector_dimension) = some d0) :
    LocalVectorStore.add s batch =
      (.error (.dimensionMismatch d0.document_id d0.embedding.length s.vector_dimension), s) := by
  have hne : batch ≠ [] := by
    intro hnil
    rw [hnil] at hf
    simp at hf
  unfold LocalVectorStore.add
  rw [if_neg hne, hf]

/-- query on a nonempty store with a well-sized probe returns the sliced
ranking and leaves the state unchanged. -/
theorem query_eq_slice (s : LocalVectorStore) (probe : List ℚ) (k : Int)
    (hne : s.documents ≠ []) (hlen : probe.length = s.vector_dimension) :
    LocalVectorStore.query s probe k =
      (.ok (pySlice (LocalVectorStore.rankedDocs s probe) k), s) := by
  unfold LocalVectorStore.query
  rw [if_neg hne, if_neg (by simp [hlen])]

/-- query never changes the store state. -/
theorem query_snd (s : LocalVectorStore) (probe : List ℚ) (k : Int) :
    (LocalVectorStore.query s probe k).2 = s := by
  unfold LocalVectorStore.query
  split
  · rfl
  · split
    · rfl
    · rfl

/-- The ranking is a permutation of the stored documents. -/
theorem rankedDocs_perm (s : LocalVectorStore) (probe : List ℚ) :
    (LocalVectorStore.rankedDocs s probe).Perm s.documents := by
  exact List.perm_insertionSort _ s.documents

/-- init on an existing file wraps the loaded documents. -/
theorem init_some (payload : Json) (dim : Nat) (docs : List StoredDocument)
    (h : LocalVectorStore.load payload = .ok docs) :
    LocalVectorStore.init (some payload) dim = .ok ⟨dim, docs, some payload, 0⟩ := by
  have hred : LocalVectorStore.init (some payload) dim =
      Except.map (fun docs => (⟨dim, docs, some payload, 0⟩ : LocalVectorStore))
        (LocalVectorStore.load payload) := rfl
  rw [hred, h]
  rfl

/-! Claim theorems. -/

/-- C1: for every sequence of StoredDocuments whose embeddings all have
the configured dimension, adding them to a fresh store and constructing a
new store instance from the resulting persistence file yields a loaded
document sequence equal to the original, field for field and in order. -/
theorem c1_round_trip (dim : Nat) (docs : List StoredDocument)
    (h : ∀ d ∈ docs, d.embedding.length = dim) :
    ∃ s1 : LocalVectorStore,
      LocalVectorStore.add (LocalVectorStore.fresh dim) docs = (.ok (), s1) ∧
      ∃ s2 : LocalVectorStore,
        LocalVectorStore.init s1.file dim = .ok s2 ∧ s2.documents = docs := by
  by_cases hd : docs = []
  · subst hd
    exact ⟨LocalVectorStore.fresh dim, rfl, LocalVectorStore.fresh dim, rfl, rfl⟩
  · refine ⟨_, add_all_valid (LocalVectorStore.fresh dim) docs hd h,
      ⟨dim, docs, some (LocalVectorStore.savePayload docs), 0⟩, ?_, rfl⟩
    exact init_some (LocalVectorStore.savePayload docs) dim docs (load_savePayload docs)

/-- Witness for C1 at a concrete document list. -/
theorem c1_witness :
    (∀ d ∈ [docW], d.embedding.length = 2) ∧
    ∃ s1, LocalVectorStore.add (LocalVectorStore.fresh 2) [docW] = (.ok (), s1) ∧
      ∃ s2, LocalVectorStore.init s1.file 2 = .ok s2 ∧ s2.documents = [docW] :=
  ⟨by decide, c1_round_trip 2 [docW] (by decide)⟩

/-- C2: a batch holding any document whose embedding length differs from
the configured dimension makes add fail with the dimension-mismatch error
naming an offending document, its actual length and the expected length,
leaving the state (documents and file) unchanged; a fully valid nonempty
batch is appended in full and the file rewritten. -/
theorem c2_add_dimension_enforcement (s : LocalVectorStore) (batch : List StoredDocument) :
    ((∃ d ∈ batch, d.embedding.length ≠ s.vector_dimension) →
      ∃ d0 ∈ batch, d0.embedding.length ≠ s.vector_dimension ∧
        LocalVectorStore.add s batch =
          (.error (.dimensionMismatch d0.document_id d0.embedding.length s.vector_dimension),
           s)) ∧
    (batch ≠ [] → (∀ d ∈ batch, d.embedding.length = s.vector_dimension) →
      LocalVectorStore.add s batch =
        (.ok (), { s with
          documents := s.documents ++ batch,
          file := some (LocalVectorStore.savePayload (s.documents ++ batch)),
          file_writes := s.file_writes + 1 })) := by
  constructor
  · intro hex
    have hsome : (batch.find? (fun d => d.embedding.length != s.vector_dimension)).isSome := by
      rw [List.find?_isSome]
      obtain ⟨d, hd, hne⟩ := hex
      exact ⟨d, hd, by simpa using hne⟩
    obtain ⟨d0, hf⟩ := Option.isSome_iff_exists.mp hsome
    refine ⟨d0, List.mem_of_find?_eq_some hf, ?_, add_first_invalid s batch d0 hf⟩
    have hp := List.find?_some hf
    simpa using hp
  · exact add_all_valid s batch

/-- Witness for C2 at a concrete invalid batch. -/
theorem c2_witness :
    (∃ d ∈ [docBad2], d.embedding.length ≠ (LocalVectorStore.fresh 3).vector_dimension) ∧
    LocalVectorStore.add (LocalVectorStore.fresh 3) [docBad2] =
      (.error (.dimensionMismatch "b" 2 3), LocalVectorStore.fresh 3) := by
  refine ⟨⟨docBad2, by simp, by decide⟩, ?_⟩
  rcases (c2_add_dimension_enforcement (LocalVectorStore.fresh 3) [docBad2]).1
      ⟨docBad2, by simp, by decide⟩ with ⟨d0, hmem, hlen, heq⟩
  have hd0 : d0 = docBad2 := by simpa using hmem
  subst hd0
  exact heq

/-- C5 as stated is false: on the empty store the emptiness check comes
before the probe length check, so a wrong-length probe returns the empty
list instead of failing with DimensionMismatch. -/
theorem c5_counterexample :
    LocalVectorStore.query (LocalVectorStore.fresh 3) [1, 2] 5 =
      (.ok [], LocalVectorStore.fresh 3) ∧
    ([1, 2] : List ℚ).length ≠ (LocalVectorStore.fresh 3).vector_dimension :=
  ⟨rfl, by decide⟩

/-- C5 amended: on a nonempty store a probe whose length differs from the
configured dimension makes query fail with the dimension-mismatch error;
on an empty store query returns the empty sequence without error for
every probe, including wrong-length probes. -/
theorem c5_probe_validation (s : LocalVectorStore) (probe : List ℚ) (k : Int) :
    (s.documents = [] → LocalVectorStore.query s probe k = (.ok [], s)) ∧
    (s.documents ≠ [] → probe.length ≠ s.vector_dimension →
      LocalVectorStore.query s probe k =
        (.error (.queryDimensionMismatch probe.length s.vector_dimension), s)) := by
  constructor
  · intro h
    unfold LocalVectorStore.query
    rw [if_pos h]
  · intro h1 h2
    unfold LocalVectorStore.query
    rw [if_neg h1, if_pos (by simpa using h2)]

/-- Witness for C5 (amended) at a concrete nonempty store. -/
theorem c5_witness :
    store3.documents ≠ [] ∧ ([1, 2] : List ℚ).length ≠ store3.vector_dimension ∧
    LocalVectorStore.query store3 [1, 2] 7 =
      (.error (.queryDimensionMismatch 2 3), store3) := by
  refine ⟨by decide, by decide, ?_⟩
  exact (c5_probe_validation store3 [1, 2] 7).2 (by decide) (by decide)

/-- C6: whenever either vector has zero norm (equivalently, a zero sum of
squares, in particular the all-zero vector), the cosine similarity used
by query is exactly 0, and the executable ranking key agrees; the guard
means the division is never evaluated, so no division error can occur. -/
theorem c6_zero_norm_similarity (a b : List ℚ) (h : sumSq a = 0 ∨ sumSq b = 0) :
    cosine_similarity a b = 0 ∧ simKey a b = 0 := by
  have hs : Real.sqrt ((sumSq a : ℚ) : ℝ) = 0 ∨ Real.sqrt ((sumSq b : ℚ) : ℝ) = 0 := by
    rcases h with h1 | h1
    · exact Or.inl ((sqrt_sumSq_eq_zero_iff a).mpr h1)
    · exact Or.inr ((sqrt_sumSq_eq_zero_iff b).mpr h1)
  constructor
  · rw [cosine_similarity_def, if_pos hs]
  · unfold simKey
    rw [if_pos h]

/-- Witness for C6 at the all-zero vector against a nonzero vector. -/
theorem c6_witness :
    (sumSq [0, 0, 0] = 0 ∨ sumSq ([1, 2, 3] : List ℚ) = 0) ∧
    cosine_similarity [0, 0, 0] [1, 2, 3] = 0 ∧ simKey [0, 0, 0] [1, 2, 3] = 0 :=
  ⟨Or.inl (by norm_num [sumSq]),
   c6_zero_norm_similarity [0, 0, 0] [1, 2, 3] (Or.inl (by norm_num [sumSq]))⟩

/-- C10: only a successful add of a nonempty batch mutates store state:
add of the empty batch returns the state unchanged without rewriting the
file, a failing add returns the state unchanged, and query returns the
state unchanged for every probe and every top_k. -/
theorem c10_frame_conditions (s : LocalVectorStore) (probe : List ℚ) (k : Int) :
    LocalVectorStore.add s [] = (.ok (), s) ∧
    (LocalVectorStore.query s probe k).2 = s ∧
    (∀ batch e, (LocalVectorStore.add s batch).1 = .error e →
      (LocalVectorStore.add s batch).2 = s) := by
  refine ⟨rfl, query_snd s probe k, ?_⟩
  intro batch e h
  by_cases hb : batch = []
  · subst hb
    rfl
  · unfold LocalVectorStore.add at h ⊢
    rw [if_neg hb] at h ⊢
    cases hf : batch.find? (fun d => d.embedding.length != s.vector_dimension) with
    | some doc => rfl
    | none =>
      rw [hf] at h
      simp at h

/-- Witness for C10 at a concrete store. -/
theorem c10_witness :
    LocalVectorStore.add store3 [] = (.ok (), store3) ∧
    (LocalVectorStore.query store3 [1, 0, 0] 2).2 = store3 :=
  ⟨(c10_frame_conditions store3 [1, 0, 0] 2).1,
   (c10_frame_conditions store3 [1, 0, 0] 2).2.1⟩

/-- Ranking key of the exact-match vector against the probe. -/
theorem simKey_exact : simKey [1, 0, 0] [1, 0, 0] = 1 := by
  norm_num [simKey, sumSq, dotProd]

/-- Ranking key of the orthogonal vector against the probe. -/
theorem simKey_orth : simKey [0, 1, 0] [1, 0, 0] = 0 := by
  norm_num [simKey, sumSq, dotProd]

/-- Ranking key of the partial-overlap vector against the probe. -/
theorem simKey_partial : simKey [0.8, 0.2, 0] [1, 0, 0] = 16 / 17 := by
  norm_num [simKey, sumSq, dotProd, abs_of_nonneg]

/-- The ranking of the three-document store for probe [1,0,0]. -/
theorem ranked_store3 :
    LocalVectorStore.rankedDocs store3 [1, 0, 0] = [docA, docC, docB] := by
  have h1 : ¬ (simKey docC.embedding [1, 0, 0] ≤ simKey docB.embedding [1, 0, 0]) := by
    rw [show docC.embedding = [0.8, 0.2, 0] from rfl, show docB.embedding = [0, 1, 0] from rfl,
      simKey_partial, simKey_orth]
    norm_num
  have h2 : simKey docC.embedding [1, 0, 0] ≤ simKey docA.embedding [1, 0, 0] := by
    rw [show docC.embedding = [0.8, 0.2, 0] from rfl, show docA.embedding = [1, 0, 0] from rfl,
      simKey_partial, simKey_exact]
    norm_num
  show List.orderedInsert _ docA (List.orderedInsert _ docB (List.orderedInsert _ docC []))
    = [docA, docC, docB]
  simp only [List.orderedInsert]
  rw [if_neg h1]
  simp only [List.orderedInsert]
  rw [if_pos h2]

/-- Concrete evaluation of the query of the three-document store. -/
theorem query_store3_eval :
    (LocalVectorStore.query store3 [1, 0, 0] 2).1 = .ok [docA, docC] := by
  rw [query_eq_slice store3 [1, 0, 0] 2 (by decide) (by decide), ranked_store3]
  rfl

/-- C3 as stated is false: the exact vector has cosine similarity 1,
strictly above the partial-overlap vector, so query returns the
[1,0,0]-document first, not the [0.8,0.2,0]-document. -/
theorem c3_counterexample :
    (LocalVectorStore.query store3 [1, 0, 0] 2).1 = .ok [docA, docC] ∧
    (Except.ok [docA, docC] : Except PyErr (List StoredDocument)) ≠ .ok [docC, docA] :=
  ⟨query_store3_eval, by decide⟩

/-- C3 amended: in the given scenario query returns the [1,0,0]-document
first and the [0.8,0.2,0]-document second — descending cosine similarity,
with the exact vector beating the partial-overlap vector beating the
orthogonal one. -/
theorem c3_similarity_ordering :
    (LocalVectorStore.query store3 [1, 0, 0] 2).1 = .ok [docA, docC] ∧
    cosine_similarity [0, 1, 0] [1, 0, 0] < cosine_similarity [0.8, 0.2, 0] [1, 0, 0] ∧
    cosine_similarity [0.8, 0.2, 0] [1, 0, 0] < cosine_similarity [1, 0, 0] [1, 0, 0] := by
  refine ⟨query_store3_eval, ?_, ?_⟩
  · rw [← simKey_lt_iff, simKey_orth, simKey_partial]
    norm_num
  · rw [← simKey_lt_iff, simKey_partial, simKey_exact]
    norm_num

/-- Ranking key of the first dimension-1 document. -/
theorem simKey_pos_one : simKey [1] [1] = 1 := by
  norm_num [simKey, sumSq, dotProd]

/-- Ranking key of the second dimension-1 document. -/
theorem simKey_neg_one : simKey [-1] [1] = -1 := by
  norm_num [simKey, sumSq, dotProd, abs_neg, abs_one]

/-- The ranking of the two-document store for probe [1]. -/
theorem ranked_store2 : LocalVectorStore.rankedDocs store2 [1] = [docX, docY] := by
  have h1 : simKey docY.embedding [1] ≤ simKey docX.embedding [1] := by
    rw [show docY.embedding = [-1] from rfl, show docX.embedding = [1] from rfl,
      simKey_neg_one, simKey_pos_one]
    norm_num
  have e1 : LocalVectorStore.rankedDocs store2 [1] =
      List.orderedInsert (fun d1 d2 => simKey d2.embedding [1] ≤ simKey d1.embedding [1]) docX
        (List.orderedInsert (fun d1 d2 => simKey d2.embedding [1] ≤ simKey d1.embedding [1]) docY
          []) := rfl
  rw [e1]
  simp only [List.orderedInsert]
  rw [if_pos h1]

/-- C4 as stated is false for negative top_k: Python slicing gives
scored[:-1] = all but the last element, so query with top_k = -1 on a
two-document store returns one document, not an empty sequence. -/
theorem c4_counterexample :
    (LocalVectorStore.query store2 [1] (-1)).1 = .ok [docX] ∧
    (Except.ok [docX] : Except PyErr (List StoredDocument)) ≠ .ok [] ∧
    (-1 : Int) ≤ 0 := by
  refine ⟨?_, by decide, by decide⟩
  rw [query_eq_slice store2 [1] (-1) (by decide) (by decide), ranked_store2]
  rfl

/-- C4 amended: for a nonempty store and a well-sized probe, top_k at
least the document count returns all documents ranked (a permutation of
the store); top_k = 0 returns the empty sequence; a negative top_k
returns the first count + top_k ranked documents (Python slice
semantics), clamped at zero — not always the empty sequence. -/
theorem c4_topk_clamping (s : LocalVectorStore) (probe : List ℚ) (k : Int)
    (hne : s.documents ≠ []) (hlen : probe.length = s.vector_dimension) :
    ((s.documents.length : Int) ≤ k →
      (LocalVectorStore.query s probe k).1 = .ok (LocalVectorStore.rankedDocs s probe) ∧
      (LocalVectorStore.rankedDocs s probe).Perm s.documents) ∧
    (k = 0 → (LocalVectorStore.query s probe k).1 = .ok []) ∧
    (k < 0 → (LocalVectorStore.query s probe k).1 =
      .ok ((LocalVectorStore.rankedDocs s probe).take
        ((s.documents.length : Int) + k).toNat)) := by
  have hq := query_eq_slice s probe k hne hlen
  have hlen2 : (LocalVectorStore.rankedDocs s probe).length = s.documents.length :=
    (rankedDocs_perm s probe).length_eq
  refine ⟨?_, ?_, ?_⟩
  · intro hk
    have h0k : (0 : Int) ≤ k := le_trans (Int.natCast_nonneg _) hk
    refine ⟨?_, rankedDocs_perm s probe⟩
    rw [hq]
    show Except.ok (pySlice (LocalVectorStore.rankedDocs s probe) k) = _
    unfold pySlice
    rw [if_pos h0k, List.take_of_length_le (by rw [hlen2]; omega)]
  · intro hk
    subst hk
    rw [hq]
    show Except.ok (pySlice (LocalVectorStore.rankedDocs s probe) 0) = _
    unfold pySlice
    rw [if_pos le_rfl]
    rfl
  · intro hk
    rw [hq]
    show Except.ok (pySlice (LocalVectorStore.rankedDocs s probe) k) = _
    unfold pySlice
    rw [if_neg (by omega), hlen2]

/-- Witness for C4 (amended) at a concrete store and top_k above the
document count. -/
theorem c4_witness :
    store2.documents ≠ [] ∧ ([1] : List ℚ).length = store2.vector_dimension ∧
    (store2.documents.length : Int) ≤ 5 ∧
    (LocalVectorStore.query store2 [1] 5).1 = .ok (LocalVectorStore.rankedDocs store2 [1]) ∧
    (LocalVectorStore.rankedDocs store2 [1]).Perm store2.documents :=
  ⟨by decide, by decide, by decide,
   ((c4_topk_clamping store2 [1] 5 (by decide) (by decide)).1 (by decide)).1,
   ((c4_topk_clamping store2 [1] 5 (by decide) (by decide)).1 (by decide)).2⟩

/-- query on an empty store returns the empty list at once, for every
probe and every top_k. -/
theorem query_empty_store (s : LocalVectorStore) (probe : List ℚ) (k : Int)
    (h : s.documents = []) : LocalVectorStore.query s probe k = (.ok [], s) := by
  unfold LocalVectorStore.query
  rw [if_pos h]

/-- C9 is half right: loading succeeds without re-validating the stored
embedding lengths, but the mismatch is not surfaced by the next query
touching the stale vector — the similarity zips (truncating to the
shorter vector) and the query succeeds, returning the mismatched
document. -/
theorem c9_counterexample :
    LocalVectorStore.init (some payload9) 3 = .ok store9 ∧
    docBad.embedding.length ≠ store9.vector_dimension ∧
    (LocalVectorStore.query store9 [1, 0, 0] 1).1 = .ok [docBad] := by
  refine ⟨?_, by decide, ?_⟩
  · exact init_some payload9 3 [docBad] (load_savePayload [docBad])
  · rw [query_eq_slice store9 [1, 0, 0] 1 (by decide) (by decide)]
    rfl

/-- C9 amended: loading never re-validates embedding lengths (a loadable
payload opens under any configured dimension), and the mismatch is NOT
surfaced by the next add or query: add validates only its own batch and
succeeds regardless of stale stored vectors, and query with a well-sized
probe always succeeds, computing similarity against mismatched stored
vectors by zip truncation instead of failing. -/
theorem c9_lazy_dimension (payload : Json) (dim : Nat) (docs : List StoredDocument)
    (h : LocalVectorStore.load payload = .ok docs) :
    LocalVectorStore.init (some payload) dim = .ok ⟨dim, docs, some payload, 0⟩ ∧
    (∀ batch, batch ≠ [] → (∀ d ∈ batch, d.embedding.length = dim) →
      ∃ s1, LocalVectorStore.add ⟨dim, docs, some payload, 0⟩ batch = (.ok (), s1)) ∧
    (∀ probe k, docs ≠ [] → probe.length = dim →
      (LocalVectorStore.query ⟨dim, docs, some payload, 0⟩ probe k).1 =
        .ok (pySlice (LocalVectorStore.rankedDocs ⟨dim, docs, some payload, 0⟩ probe) k)) := by
  refine ⟨init_some payload dim docs h, ?_, ?_⟩
  · intro batch hne hval
    exact ⟨_, add_all_valid ⟨dim, docs, some payload, 0⟩ batch hne hval⟩
  · intro probe k hne hlen
    rw [query_eq_slice ⟨dim, docs, some payload, 0⟩ probe k hne hlen]

/-- Witness for C9 (amended) at the concrete stale payload. -/
theorem c9_witness :
    LocalVectorStore.load payload9 = .ok [docBad] ∧
    LocalVectorStore.init (some payload9) 3 = .ok ⟨3, [docBad], some payload9, 0⟩ :=
  ⟨load_savePayload [docBad],
   (c9_lazy_dimension payload9 3 [docBad] (load_savePayload [docBad])).1⟩

/-- When the research step fails, run aborts at once: the error is
surfaced, the store is untouched and no adapter call was made. -/
theorem run_research_error (env : PipelineEnv) (s : LocalVectorStore) (q : String)
    (e : PyErr) (h : env.research = .error e) :
    ResearchPipeline.run env s q = (.error e, s, []) := by
  obtain ⟨r, svc, sumz, hasg, topk⟩ := env
  change r = Except.error e at h
  subst h
  rfl

/-- Definitional unfolding of run in the zero-snippet case: the content
embedding is skipped (empty input, no service call), nothing is added,
the query is embedded with one service call, and the remaining behavior
is determined by the service outcome and the store query. -/
theorem run_zero_unfold (svc : List String → Except PyErr (List (List ℚ)))
    (sumz : String → List String → String) (hasg : Bool) (topk : Int)
    (s : LocalVectorStore) (q : String) :
    ResearchPipeline.run ⟨.ok [], svc, sumz, hasg, topk⟩ s q =
      (match svc [q] with
       | .error e => (.error e, s, [CallEvent.embedCall [q]])
       | .ok [] => (.error .indexError, s, [CallEvent.embedCall [q]])
       | .ok (qe :: _) =>
         match (LocalVectorStore.query s qe topk).1 with
         | .error e =>
           (.error e, (LocalVectorStore.query s qe topk).2, [CallEvent.embedCall [q]])
         | .ok similar =>
           (.ok ⟨q, [], "No research findings were produced.", similar⟩,
            (LocalVectorStore.query s qe topk).2, [CallEvent.embedCall [q]])) := rfl

/-- run in the zero-snippet case when embedding the query fails. -/
theorem run_zero_embed_error (svc : List String → Except PyErr (List (List ℚ)))
    (sumz : String → List String → String) (hasg : Bool) (topk : Int)
    (s : LocalVectorStore) (q : String) (e : PyErr) (hsvc : svc [q] = .error e) :
    ResearchPipeline.run ⟨.ok [], svc, sumz, hasg, topk⟩ s q =
      (.error e, s, [CallEvent.embedCall [q]]) := by
  rw [run_zero_unfold, hsvc]

/-- run in the zero-snippet case when the embedding service returns no
vectors for the query: indexing [0] fails. -/
theorem run_zero_embed_nil (svc : List String → Except PyErr (List (List ℚ)))
    (sumz : String → List String → String) (hasg : Bool) (topk : Int)
    (s : LocalVectorStore) (q : String) (hsvc : svc [q] = .ok []) :
    ResearchPipeline.run ⟨.ok [], svc, sumz, hasg, topk⟩ s q =
      (.error .indexError, s, [CallEvent.embedCall [q]]) := by
  rw [run_zero_unfold, hsvc]

/-- run in the zero-snippet case with a query embedding available: the
result is determined by the store query, the store is unchanged, and the
only adapter call is the query embedding. -/
theorem run_zero_embed_ok (svc : List String → Except PyErr (List (List ℚ)))
    (sumz : String → List String → String) (hasg : Bool) (topk : Int)
    (s : LocalVectorStore) (q : String) (qe : List ℚ) (rest : List (List ℚ))
    (hsvc : svc [q] = .ok (qe :: rest)) :
    ResearchPipeline.run ⟨.ok [], svc, sumz, hasg, topk⟩ s q =
      (match (LocalVectorStore.query s qe topk).1 with
       | .error e => (.error e, s, [CallEvent.embedCall [q]])
       | .ok similar =>
         (.ok ⟨q, [], "No research findings were produced.", similar⟩, s,
          [CallEvent.embedCall [q]])) := by
  rw [run_zero_unfold, hsvc]
  show ((match (LocalVectorStore.query s qe topk).1 with
    | .error e => (.error e, (LocalVectorStore.query s qe topk).2, [CallEvent.embedCall [q]])
    | .ok similar =>
      (.ok ⟨q, [], "No research findings were produced.", similar⟩,
       (LocalVectorStore.query s qe topk).2, [CallEvent.embedCall [q]])) :
    Except PyErr ResearchOutput × LocalVectorStore × List CallEvent) = _
  cases hq : (LocalVectorStore.query s qe topk).1 with
  | error e => rw [query_snd]
  | ok similar => rw [query_snd]

/-- C7 as stated is false in its queries-nothing part: with zero snippets
run still embeds the query and queries the store, so similar_documents
holds the pre-existing document rather than being empty. -/
theorem c7_counterexample :
    (ResearchPipeline.run envC7 storeC7 "topic").1 =
      .ok ⟨"topic", [], "No research findings were produced.", [docOld]⟩ ∧
    ([docOld] : List StoredDocument) ≠ [] :=
  ⟨rfl, by decide⟩

/-- C7 amended: with zero snippets run stores nothing (the store state is
unchanged), never invokes the summary adapter, and any successful result
carries the fixed no-findings summary and no snippets; however run still
embeds the query and queries the store, so similar_documents reflects the
pre-existing store contents and is only guaranteed empty when the store
is empty. -/
theorem c7_zero_snippets (env : PipelineEnv) (s : LocalVectorStore) (q : String)
    (h : env.research = .ok []) :
    (ResearchPipeline.run env s q).2.1 = s ∧
    (∀ ev ∈ (ResearchPipeline.run env s q).2.2,
      ∀ qq bb, ev ≠ CallEvent.summarizeCall qq bb) ∧
    (∀ out, (ResearchPipeline.run env s q).1 = .ok out →
      out.summary = "No research findings were produced." ∧ out.snippets = [] ∧
      (s.documents = [] → out.similar_documents = [])) := by
  obtain ⟨r, svc, sumz, hasg, topk⟩ := env
  change r = Except.ok [] at h
  subst h
  cases hsvc : svc [q] with
  | error e =>
    rw [run_zero_embed_error svc sumz hasg topk s q e hsvc]
    refine ⟨rfl, ?_, ?_⟩
    · intro ev hev qq bb
      simp only [List.mem_singleton] at hev
      subst hev
      simp
    · intro out hout
      simp at hout
  | ok qs =>
    cases qs with
    | nil =>
      rw [run_zero_embed_nil svc sumz hasg topk s q hsvc]
      refine ⟨rfl, ?_, ?_⟩
      · intro ev hev qq bb
        simp only [List.mem_singleton] at hev
        subst hev
        simp
      · intro out hout
        simp at hout
    | cons qe rest =>
      rw [run_zero_embed_ok svc sumz hasg topk s q qe rest hsvc]
      cases hq : (LocalVectorStore.query s qe topk).1 with
      | error e =>
        refine ⟨rfl, ?_, ?_⟩
        · intro ev hev qq bb
          simp only [List.mem_singleton] at hev
          subst hev
          simp
        · intro out hout
          simp at hout
      | ok similar =>
        refine ⟨rfl, ?_, ?_⟩
        · intro ev hev qq bb
          simp only [List.mem_singleton] at hev
          subst hev
          simp
        · intro out hout
          have h2 : Except.ok (⟨q, [], "No research findings were produced.", similar⟩ :
              ResearchOutput) = Except.ok out := hout
          injection h2 with h3
          subst h3
          refine ⟨rfl, rfl, ?_⟩
          intro hemp
          have hq2 := query_empty_store s qe topk hemp
          rw [hq2] at hq
          have h4 : Except.ok ([] : List StoredDocument) = Except.ok similar := hq
          injection h4 with h5
          exact h5.symm

/-- Witness for C7 (amended) at the concrete environment. -/
theorem c7_witness :
    envC7.research = .ok [] ∧
    (ResearchPipeline.run envC7 storeC7 "t").2.1 = storeC7 :=
  ⟨rfl, (c7_zero_snippets envC7 storeC7 "t" rfl).1⟩

/-- C8 as stated is false for JSON values that are not arrays of
objects: a response parsing to the JSON number 5 raises a TypeError
(iterating a number), not the MalformedResponse RuntimeError, and a
response parsing to the empty JSON object does not fail at all — it
yields zero snippets. -/
theorem c8_counterexample :
    ResearchAgent.parse_json_array (.json (.num 5)) =
      .error (.typeError "object is not iterable") ∧
    (PyErr.typeError "object is not iterable").isMalformedResponse = false ∧
    ResearchAgent.parse_json_array (.json (.obj [])) = .ok [] :=
  ⟨rfl, rfl, rfl⟩

/-- C8 amended: a non-JSON accumulated response makes the research
adapter fail with the MalformedResponse RuntimeError carrying the first
1000 characters of the offending text (a bounded prefix, not the whole
payload), and run aborts before any embedding call or store mutation.
The claim is restricted to the not-valid-JSON case: a text that parses
to a JSON value that is not an array of objects does not uniformly fail
with MalformedResponse (the number 5 raises a TypeError, while the empty
object succeeds with zero snippets; see the counterexample). -/
theorem c8_malformed_not_json (raw : List Char) (env : PipelineEnv)
    (s : LocalVectorStore) (q : String)
    (henv : env.research = ResearchAgent.parse_json_array (.notJson raw)) :
    ResearchAgent.parse_json_array (.notJson raw) =
      .error (.malformedResponse (raw.take 1000)) ∧
    (raw.take 1000).length ≤ 1000 ∧
    raw.take 1000 ++ raw.drop 1000 = raw ∧
    ResearchPipeline.run env s q =
      (.error (.malformedResponse (raw.take 1000)), s, []) := by
  refine ⟨rfl, ?_, List.take_append_drop 1000 raw, ?_⟩
  · rw [List.length_take]
    exact min_le_left _ _
  · exact run_research_error env s q _ henv

/-- Witness for C8 (amended) at a concrete non-JSON response. -/
theorem c8_witness :
    envC8.research = ResearchAgent.parse_json_array (.notJson "nope".data) ∧
    ResearchPipeline.run envC8 (LocalVectorStore.fresh 3) "q" =
      (.error (.malformedResponse ("nope".data.take 1000)), LocalVectorStore.fresh 3, []) :=
  ⟨rfl,
   (c8_malformed_not_json "nope".data envC8 (LocalVectorStore.fresh 3) "q" rfl).2.2.2⟩
